import Mathlib

/-!
# Verification of the Zeldar oracle metric-derivation and content-selection core

Shallow embedding of `src/oracle-component/oracle/src/lib.rs`.  Rust `f64`
values are modelled as exact rationals (`ℚ`); the claims under scrutiny are
stated over the exact arithmetic the formulas denote.  The `as usize` and
`as u32` float-to-integer casts are modelled with Rust's saturating
semantics (negative values clamp to zero, values beyond the integer range
clamp to the maximum, otherwise truncation toward zero, which on
non-negative values is the floor).  The outcome of reading and JSON-parsing
the external state file `../.topos/current_loop_state.json` is modelled by
the inductive `FileRead`; per-field extraction of the parsed JSON object is
modelled by `Option` fields with the source's `unwrap_or` defaults applied
inside the metric computation, exactly where the source applies them.
-/

namespace ZeldarOracle

/-- Mirrors the Rust struct `InformationForceMetrics` (lib.rs lines 8-16).
Float fields become `ℚ`, `strange_loops : u32` becomes `ℕ`. -/
structure InformationForceMetrics where
  semantic_closure : ℚ
  strange_loops : ℕ
  hofstadter_coefficient : ℚ
  spectral_gap : ℚ
  correlation_strength : ℚ
  threshold_exceeded : Bool
  deriving DecidableEq, Repr

/-- The fields of the external state JSON object that
`calculate_information-dynamics_metrics` and
`generate_information-dynamics_haiku` extract.  Each field is `none` when
absent from the JSON object (so that `unwrap_or` / `as_str` fall back).
`loop_iteration` is the raw JSON non-negative integer, before the
`as_u64 ... as u32` conversion performed by the source. -/
structure LoopState where
  information_dynamics_phi : Option ℚ
  quantum_entropy : Option ℚ
  loop_iteration : Option ℕ
  haiku_content : Option String
  deriving DecidableEq, Repr

/-- Outcome of `fs::read_to_string` followed by `serde_json::from_str` on
the state file: the file may be missing/unreadable (`missing`), readable
but not valid JSON (`unparseable`, carrying the raw content), or readable
and parsed (`parsed`). -/
inductive FileRead where
  | missing : FileRead
  | unparseable : String → FileRead
  | parsed : LoopState → FileRead
  deriving DecidableEq, Repr

/-- Ambient world state visible to a call.  The only component a request
handler could conceivably consult is the wall clock; the embedding makes it
explicit so that clock-(in)dependence can be stated. -/
structure World where
  clock : ℕ
  deriving DecidableEq, Repr

/-- Rust `expr as u32` on an `f64` value: saturating cast, truncation
toward zero for in-range non-negative values. -/
def rust_cast_u32 (q : ℚ) : ℕ :=
  if q ≤ 0 then 0
  else if (2 ^ 32 : ℚ) ≤ q then 2 ^ 32 - 1
  else (⌊q⌋).toNat

/-- Rust `expr as usize` on an `f64` value (64-bit target): saturating
cast, truncation toward zero for in-range non-negative values. -/
def rust_cast_usize (q : ℚ) : ℕ :=
  if q ≤ 0 then 0
  else if (2 ^ 64 : ℚ) ≤ q then 2 ^ 64 - 1
  else (⌊q⌋).toNat

/-! ## SipHash-1-3, the hasher behind `std::collections::hash_map::DefaultHasher`

`get_current_timestamp` (lib.rs lines 374-382) feeds the fixed string
`"timestamp"` to a fresh `DefaultHasher` — SipHash-1-3 with both keys zero —
and returns `finish()`.  Rust's `Hash` for `str` writes the UTF-8 bytes
followed by a `0xff` terminator byte.  The embedding implements the hash
over `ℕ` with explicit wrapping at `2 ^ 64`. -/

/-- Wrap to 64 bits. -/
def wrap64 (x : ℕ) : ℕ := x % 2 ^ 64

/-- 64-bit left rotation (input assumed `< 2 ^ 64`). -/
def rotl64 (x b : ℕ) : ℕ := wrap64 (x * 2 ^ b) + x / 2 ^ (64 - b)

/-- The four 64-bit lanes of the SipHash internal state. -/
structure SipState where
  v0 : ℕ
  v1 : ℕ
  v2 : ℕ
  v3 : ℕ
  deriving DecidableEq, Repr

/-- One SipHash round. -/
def sipRound (s : SipState) : SipState :=
  let v0 := wrap64 (s.v0 + s.v1)
  let v1 := rotl64 s.v1 13
  let v1 := v1 ^^^ v0
  let v0 := rotl64 v0 32
  let v2 := wrap64 (s.v2 + s.v3)
  let v3 := rotl64 s.v3 16
  let v3 := v3 ^^^ v2
  let v0 := wrap64 (v0 + v3)
  let v3 := rotl64 v3 21
  let v3 := v3 ^^^ v0
  let v2 := wrap64 (v2 + v1)
  let v1 := rotl64 v1 17
  let v1 := v1 ^^^ v2
  let v2 := rotl64 v2 32
  ⟨v0, v1, v2, v3⟩

/-- Little-endian packing of up to 8 bytes into a 64-bit word. -/
def leBytesToWord (bs : List ℕ) : ℕ :=
  bs.foldr (fun b acc => acc * 256 + b) 0

/-- Absorb one message word: `v3 ^= m`, one round (SipHash-1-3 has one
compression round), `v0 ^= m`. -/
def sipCompress (s : SipState) (m : ℕ) : SipState :=
  let s := { s with v3 := s.v3 ^^^ m }
  let s := sipRound s
  { s with v0 := s.v0 ^^^ m }

/-- Consume the message in 8-byte blocks; the final (short) block carries
the message length in its top byte. -/
def sipProcess (totalLen : ℕ) : SipState → List ℕ → SipState
  | s, b0 :: b1 :: b2 :: b3 :: b4 :: b5 :: b6 :: b7 :: rest =>
      sipProcess totalLen (sipCompress s (leBytesToWord [b0, b1, b2, b3, b4, b5, b6, b7])) rest
  | s, rest => sipCompress s (leBytesToWord rest + totalLen % 256 * 2 ^ 56)

/-- SipHash-1-3 with keys `k0 = k1 = 0` of a byte sequence, as produced by
`DefaultHasher::new()` + `write` + `finish`. -/
def siphash13 (msg : List ℕ) : ℕ :=
  let s : SipState :=
    ⟨0x736f6d6570736575, 0x646f72616e646f6d, 0x6c7967656e657261, 0x7465646279746573⟩
  let s := sipProcess msg.length s msg
  let s := { s with v2 := s.v2 ^^^ 0xff }
  let s := sipRound (sipRound (sipRound s))
  s.v0 ^^^ s.v1 ^^^ s.v2 ^^^ s.v3

/-- `get_current_timestamp` (lib.rs 374-382): hashes the fixed ASCII string
`"timestamp"` (bytes plus the `0xff` terminator Rust's `Hash for str`
appends) with a fresh `DefaultHasher`.  The ambient `World` — in
particular its clock — is never consulted. -/
def get_current_timestamp (_w : World) : ℕ :=
  siphash13 (("timestamp".data.map Char.toNat) ++ [0xff])

/-! ## Metric derivation (`calculate_information-dynamics_metrics`, lib.rs 225-275) -/

/-- The snapshot branch (lib.rs 232-250): runs when the state file was read
and parsed.  Field extraction `state["..."].as_f64().unwrap_or(d)` becomes
`Option.getD`; `as_u64` yields the integer only when it fits `u64`
(otherwise `unwrap_or(1)` fires), and the subsequent `as u32` truncates
modulo `2 ^ 32`. -/
def snapshot_branch (state : LoopState) : InformationForceMetrics :=
  let information_dynamics_phi := state.information_dynamics_phi.getD 3.252
  let quantum_entropy := state.quantum_entropy.getD 0.926
  let loop_iteration :=
    (match state.loop_iteration with
      | some n => if n < 2 ^ 64 then n else 1
      | none => 1) % 2 ^ 32
  let semantic_closure := information_dynamics_phi / 10 + 0.6
  let hofstadter_coefficient := information_dynamics_phi / 3
  let spectral_gap := quantum_entropy * 10
  { semantic_closure := min semantic_closure 1
    strange_loops := loop_iteration % 5 + 3
    hofstadter_coefficient := hofstadter_coefficient
    spectral_gap := spectral_gap
    correlation_strength := 0.98
    threshold_exceeded := decide (information_dynamics_phi > 1) }

/-- The fallback/simulation branch (lib.rs 257-274), as a function of the
already-computed `time_factor` value. -/
def fallback_branch (time_factor : ℚ) : InformationForceMetrics :=
  let semantic_closure := 0.885 + time_factor * 0.1
  let strange_loops := 3 + rust_cast_u32 (time_factor * 10) % 3
  let hofstadter_coefficient := 1.02 + time_factor * 0.1
  let spectral_gap := 5.26 + time_factor * 2
  let correlation_strength := 0.95 + time_factor * 0.05
  { semantic_closure := semantic_closure
    strange_loops := strange_loops
    hofstadter_coefficient := hofstadter_coefficient
    spectral_gap := spectral_gap
    correlation_strength := correlation_strength
    threshold_exceeded := decide (semantic_closure > 0.8) }

/-- `calculate_information-dynamics_metrics` (lib.rs 225-275).  A parsed
state file takes the snapshot branch and returns immediately; a missing
file or a parse failure falls through to the simulation branch, whose
`time_factor` is `(get_current_timestamp() as f64 / 1000.0).sin().abs()`.
The transcendental `x.sin().abs()` step is abstracted as the function
argument `sinAbs`: every theorem below holds for an arbitrary `sinAbs`, in
particular for the intended one. -/
def calculate_information_dynamics_metrics (file : FileRead) (sinAbs : ℚ → ℚ)
    (w : World) : InformationForceMetrics :=
  match file with
  | FileRead.parsed state => snapshot_branch state
  | _ => fallback_branch (sinAbs ((get_current_timestamp w : ℚ) / 1000))

/-! ## Content selection (lib.rs 119-128, 307-372) -/

/-- `haiku_content.split("\\n")` in the source splits on the literal
two-character sequence backslash-`n` (not on newline characters).  Scanner
over the character list, leftmost-match, non-overlapping — the semantics of
Rust's `str::split` with a two-character pattern. -/
def splitOnLit : List Char → List Char → List (List Char)
  | [], cur => [cur.reverse]
  | '\\' :: 'n' :: rest, cur => cur.reverse :: splitOnLit rest []
  | c :: rest, cur => splitOnLit rest (c :: cur)

/-- The `Vec<String>` of haiku lines obtained from `haiku_content`
(lib.rs 315-317). -/
def split_haiku (s : String) : List String :=
  (splitOnLit s.data []).map fun l => String.mk l

/-- `generate_standard_haiku` (lib.rs 353-359). -/
def generate_standard_haiku : List String :=
  ["Quantum paths unfold,", "Mathematical beauty waits—", "InformationForce near"]

/-- The fixed 4-entry fallback haiku table of
`generate_information-dynamics_haiku` (lib.rs 326-347). -/
def information_dynamics_haiku : List (List String) :=
  [["Hidden paths reveal", "What seems impossible unfolds —", "Magic lives in doubt"],
   ["Loops correlate through", "Mathematical information-dynamics—", "Desert sand transforms"],
   ["Category maps fold,", "Strange loops embrace paradox—", "Awareness emerges"],
   ["Three systems dancing,", "Correlation weaves meaning—", "InformationForce blooms bright"]]

/-- The haiku-table index (lib.rs 349):
`(metrics.semantic_closure * TABLE.len() as f64) as usize % TABLE.len()`. -/
def haiku_table_index (metrics : InformationForceMetrics) : ℕ :=
  rust_cast_usize (metrics.semantic_closure * (information_dynamics_haiku.length : ℚ)) %
    information_dynamics_haiku.length

/-- `generate_information-dynamics_haiku` (lib.rs 307-351): if the state
file reads and parses and its `haiku_content` field is a string that splits
into at least 3 lines, ALL of those lines are returned; every failure along
that path falls through to the indexed fallback table. -/
def generate_information_dynamics_haiku (file : FileRead)
    (metrics : InformationForceMetrics) : List String :=
  let snapshotLines : Option (List String) :=
    match file with
    | FileRead.parsed state =>
        match state.haiku_content with
        | some hc =>
            let lines := split_haiku hc
            if 3 ≤ lines.length then some lines else none
        | none => none
    | _ => none
  match snapshotLines with
  | some lines => lines
  | none => information_dynamics_haiku.getD (haiku_table_index metrics) []

/-- The haiku selection performed by `generate_information-dynamics_fortune`
(lib.rs 124-128): the snapshot-reading generator runs only when
`threshold_exceeded` holds; otherwise the standard haiku is returned. -/
def fortune_haiku (file : FileRead) (sinAbs : ℚ → ℚ) (w : World) : List String :=
  let information_dynamics := calculate_information_dynamics_metrics file sinAbs w
  if information_dynamics.threshold_exceeded then
    generate_information_dynamics_haiku file information_dynamics
  else
    generate_standard_haiku

/-- The fixed 5-entry mechanism table of `select_generation_mechanism`
(lib.rs 362-368). -/
def mechanisms : List String :=
  ["tri-loop correlation matrix convergence",
   "semantic closure boundary optimization",
   "hofstadter coefficient recursive analysis",
   "expander graph spectral gap resonance",
   "strange loop paradox resolution synthesis"]

/-- The mechanism-table index (lib.rs 370):
`(metrics.correlation_strength * mechanisms.len() as f64) as usize % mechanisms.len()`. -/
def mechanism_index (metrics : InformationForceMetrics) : ℕ :=
  rust_cast_usize (metrics.correlation_strength * (mechanisms.length : ℚ)) %
    mechanisms.length

/-- `select_generation_mechanism` (lib.rs 361-372). -/
def select_generation_mechanism (metrics : InformationForceMetrics) : String :=
  mechanisms.getD (mechanism_index metrics) ""

/-! ## Claims -/

/-- C2: in the snapshot branch, `threshold_exceeded` holds iff `phi > 1.0`,
and the scenario `phi = 3.252`, `quantum_entropy = 0.926`,
`loop_iteration = 1` yields exactly the record
`(0.9252, 4, 1.084, 9.26, 0.98, true)`. -/
theorem c2_threshold_iff_phi :
    (∀ state : LoopState,
      ((snapshot_branch state).threshold_exceeded = true ↔
        1 < state.information_dynamics_phi.getD 3.252))
    ∧ snapshot_branch ⟨some 3.252, some 0.926, some 1, none⟩ =
        ⟨0.9252, 4, 1.084, 9.26, 0.98, true⟩ := by
  constructor
  · intro state
    simp [snapshot_branch]
  · simp [snapshot_branch]
    norm_num

/-- Witness for C2: instantiating the iff at a snapshot with `phi = 2`
produces `threshold_exceeded = true`. -/
theorem c2_threshold_iff_phi_witness :
    (snapshot_branch ⟨some 2, none, none, none⟩).threshold_exceeded = true :=
  (c2_threshold_iff_phi.1 ⟨some 2, none, none, none⟩).mpr (by simp)

/-- C3: `get_current_timestamp` returns the same value in every world (it
hashes the fixed string `"timestamp"`, never the clock), so any two
evaluations of the fallback branch of metric derivation — whether the state
file was missing or unparseable — produce identical records, independent of
wall-clock time. -/
theorem c3_timestamp_clock_independent :
    (∀ w1 w2 : World, get_current_timestamp w1 = get_current_timestamp w2)
    ∧ (∀ (sinAbs : ℚ → ℚ) (raw : String) (w1 w2 : World),
        calculate_information_dynamics_metrics FileRead.missing sinAbs w1 =
          calculate_information_dynamics_metrics FileRead.missing sinAbs w2
        ∧ calculate_information_dynamics_metrics (FileRead.unparseable raw) sinAbs w1 =
          calculate_information_dynamics_metrics (FileRead.unparseable raw) sinAbs w2) :=
  ⟨fun _ _ => rfl, fun _ _ _ _ => ⟨rfl, rfl⟩⟩

/-- C4: in the snapshot branch, `semantic_closure` is clamped to at most 1
for every non-negative `phi`, and `phi = 100` attains exactly 1. -/
theorem c4_semantic_closure_clamp (state : LoopState) (p : ℚ)
    (hp : state.information_dynamics_phi = some p) (h0 : 0 ≤ p) :
    (snapshot_branch state).semantic_closure ≤ 1
    ∧ (p = 100 → (snapshot_branch state).semantic_closure = 1) := by
  constructor
  · exact min_le_right _ _
  · intro h100
    subst h100
    simp [snapshot_branch, hp]
    norm_num

/-- Witness for C4: the snapshot `phi = 100` has `0 ≤ 100` and yields
`semantic_closure = 1` exactly. -/
theorem c4_semantic_closure_clamp_witness :
    (0 : ℚ) ≤ 100
    ∧ (snapshot_branch ⟨some 100, none, none, none⟩).semantic_closure = 1 :=
  ⟨by simp,
   (c4_semantic_closure_clamp ⟨some 100, none, none, none⟩ 100 rfl (by simp)).2 rfl⟩

/-- Counterexample to C5: for `loop_iteration = 2 ^ 32` the code stores the
iteration through a `u64 → u32` truncating cast, so `strange_loops` is
`(2 ^ 32 mod 2 ^ 32) mod 5 + 3 = 3`, not the claimed
`(2 ^ 32 mod 5) + 3 = 4`. -/
theorem c5_strange_loop_counterexample :
    (snapshot_branch ⟨none, none, some (2 ^ 32), none⟩).strange_loops ≠ 2 ^ 32 % 5 + 3
    ∧ (snapshot_branch ⟨none, none, some (2 ^ 32), none⟩).strange_loops = 3
    ∧ 2 ^ 32 % 5 + 3 = 4 := by
  decide

/-- C5 as amended: in the snapshot branch,
`strange_loops = ((loop_iteration mod 2 ^ 32) mod 5) + 3` — the value is
truncated to `u32` first — and it always lies in `{3,...,7}`, for every
`loop_iteration` that fits in `u64`. -/
theorem c5_strange_loop_amended (state : LoopState) (n : ℕ)
    (hn : state.loop_iteration = some n) (hlt : n < 2 ^ 64) :
    (snapshot_branch state).strange_loops = n % 2 ^ 32 % 5 + 3
    ∧ 3 ≤ (snapshot_branch state).strange_loops
    ∧ (snapshot_branch state).strange_loops ≤ 7 := by
  have h : (snapshot_branch state).strange_loops = n % 2 ^ 32 % 5 + 3 := by
    simp only [snapshot_branch, hn]
    rw [if_pos hlt]
  refine ⟨h, ?_, ?_⟩ <;> rw [h] <;> omega

/-- Witness for C5 (amended): `loop_iteration = 7` gives
`strange_loops = 7 mod 5 + 3 = 5`, inside the bounds. -/
theorem c5_strange_loop_amended_witness :
    (⟨none, none, some 7, none⟩ : LoopState).loop_iteration = some 7
    ∧ (7 : ℕ) < 2 ^ 64
    ∧ ((snapshot_branch ⟨none, none, some 7, none⟩).strange_loops = 7 % 2 ^ 32 % 5 + 3
       ∧ 3 ≤ (snapshot_branch ⟨none, none, some 7, none⟩).strange_loops
       ∧ (snapshot_branch ⟨none, none, some 7, none⟩).strange_loops ≤ 7) :=
  ⟨rfl, by decide, c5_strange_loop_amended ⟨none, none, some 7, none⟩ 7 rfl (by decide)⟩

/-- C6: in the fallback branch, for every time factor `t ∈ [0,1]` the five
numeric outputs lie in their additive ranges:
`semantic_closure ∈ [0.885, 0.985]`, `strange_loops ∈ {3,4,5}`,
`hofstadter_coefficient ∈ [1.02, 1.12]`, `spectral_gap ∈ [5.26, 7.26]`,
`correlation_strength ∈ [0.95, 1.0]`. -/
theorem c6_fallback_ranges (t : ℚ) (h0 : 0 ≤ t) (h1 : t ≤ 1) :
    (0.885 ≤ (fallback_branch t).semantic_closure
      ∧ (fallback_branch t).semantic_closure ≤ 0.985)
    ∧ (3 ≤ (fallback_branch t).strange_loops ∧ (fallback_branch t).strange_loops ≤ 5)
    ∧ (1.02 ≤ (fallback_branch t).hofstadter_coefficient
      ∧ (fallback_branch t).hofstadter_coefficient ≤ 1.12)
    ∧ (5.26 ≤ (fallback_branch t).spectral_gap
      ∧ (fallback_branch t).spectral_gap ≤ 7.26)
    ∧ (0.95 ≤ (fallback_branch t).correlation_strength
      ∧ (fallback_branch t).correlation_strength ≤ 1) := by
  refine ⟨⟨?_, ?_⟩, ⟨?_, ?_⟩, ⟨?_, ?_⟩, ⟨?_, ?_⟩, ⟨?_, ?_⟩⟩
  · show (0.885 : ℚ) ≤ 0.885 + t * 0.1
    linarith
  · show (0.885 : ℚ) + t * 0.1 ≤ 0.985
    linarith
  · show 3 ≤ 3 + rust_cast_u32 (t * 10) % 3
    omega
  · show 3 + rust_cast_u32 (t * 10) % 3 ≤ 5
    omega
  · show (1.02 : ℚ) ≤ 1.02 + t * 0.1
    linarith
  · show (1.02 : ℚ) + t * 0.1 ≤ 1.12
    linarith
  · show (5.26 : ℚ) ≤ 5.26 + t * 2
    linarith
  · show (5.26 : ℚ) + t * 2 ≤ 7.26
    linarith
  · show (0.95 : ℚ) ≤ 0.95 + t * 0.05
    linarith
  · show (0.95 : ℚ) + t * 0.05 ≤ 1
    linarith

/-- Witness for C6: the ranges at `t = 1`. -/
theorem c6_fallback_ranges_witness :
    (0 : ℚ) ≤ 1 ∧ (1 : ℚ) ≤ 1
    ∧ ((0.885 ≤ (fallback_branch 1).semantic_closure
        ∧ (fallback_branch 1).semantic_closure ≤ 0.985)
      ∧ (3 ≤ (fallback_branch 1).strange_loops
        ∧ (fallback_branch 1).strange_loops ≤ 5)
      ∧ (1.02 ≤ (fallback_branch 1).hofstadter_coefficient
        ∧ (fallback_branch 1).hofstadter_coefficient ≤ 1.12)
      ∧ (5.26 ≤ (fallback_branch 1).spectral_gap
        ∧ (fallback_branch 1).spectral_gap ≤ 7.26)
      ∧ (0.95 ≤ (fallback_branch 1).correlation_strength
        ∧ (fallback_branch 1).correlation_strength ≤ 1)) :=
  ⟨zero_le_one, le_rfl, c6_fallback_ranges 1 zero_le_one le_rfl⟩

/-- C7: `select_generation_mechanism` depends only on
`correlation_strength`; wherever the `as usize` cast does not saturate
(`0 ≤ cs` and `cs * 5 < 2 ^ 64`, which covers the whole operating domain),
the index is `⌊cs * 5⌋ mod 5`; and `cs = 0.98` selects the fifth entry,
"strange loop paradox resolution synthesis". -/
theorem c7_mechanism_pure :
    (∀ m1 m2 : InformationForceMetrics,
      m1.correlation_strength = m2.correlation_strength →
        select_generation_mechanism m1 = select_generation_mechanism m2)
    ∧ (∀ m : InformationForceMetrics,
        0 ≤ m.correlation_strength → m.correlation_strength * 5 < 2 ^ 64 →
          mechanism_index m = (⌊m.correlation_strength * 5⌋).toNat % 5)
    ∧ (∀ m : InformationForceMetrics, m.correlation_strength = 0.98 →
        select_generation_mechanism m = "strange loop paradox resolution synthesis") := by
  have key : ∀ q : ℚ, 0 ≤ q → q < 2 ^ 64 → rust_cast_usize q = (⌊q⌋).toNat := by
    intro q hq hq'
    unfold rust_cast_usize
    rcases lt_or_eq_of_le hq with h | h
    · rw [if_neg (not_le.mpr h), if_neg (not_le.mpr hq')]
    · rw [← h]
      norm_num
  refine ⟨?_, ?_, ?_⟩
  · intro m1 m2 h
    simp [select_generation_mechanism, mechanism_index, h]
  · intro m h0 hlt
    have h5 : (0 : ℚ) ≤ m.correlation_strength * 5 := by positivity
    show rust_cast_usize (m.correlation_strength * (mechanisms.length : ℚ)) %
        mechanisms.length = (⌊m.correlation_strength * 5⌋).toNat % 5
    have hlen : ((mechanisms.length : ℕ) : ℚ) = 5 := by norm_num [mechanisms]
    rw [hlen, key _ h5 hlt]
    norm_num [mechanisms]
  · intro m hcs
    have h4 : mechanism_index m = 4 := by
      simp only [mechanism_index, rust_cast_usize, hcs, mechanisms]
      norm_num
      decide
    show mechanisms.getD (mechanism_index m) "" = _
    rw [h4]
    decide

/-- Witness for C7: a record with `correlation_strength = 0.98` selects
"strange loop paradox resolution synthesis". -/
theorem c7_mechanism_pure_witness :
    select_generation_mechanism ⟨0, 0, 0, 0, 0.98, true⟩ =
      "strange loop paradox resolution synthesis" :=
  c7_mechanism_pure.2.2 ⟨0, 0, 0, 0, 0.98, true⟩ rfl

/-- C8: both selectors are total — for every metrics record (any rational
values of `semantic_closure` and `correlation_strength`, including values
above 1 or below 0) the floor-cast-then-modulo index lands inside the
respective table, and the selected mechanism is an entry of the table. -/
theorem c8_selectors_total (m : InformationForceMetrics) :
    haiku_table_index m < information_dynamics_haiku.length
    ∧ mechanism_index m < mechanisms.length
    ∧ select_generation_mechanism m ∈ mechanisms := by
  refine ⟨?_, ?_, ?_⟩
  · unfold haiku_table_index
    exact Nat.mod_lt _ (by decide)
  · unfold mechanism_index
    exact Nat.mod_lt _ (by decide)
  · have h : mechanism_index m < 5 := by
      unfold mechanism_index
      exact Nat.mod_lt _ (by decide)
    show mechanisms.getD (mechanism_index m) "" ∈ mechanisms
    set k := mechanism_index m with hk
    interval_cases k <;> decide

/-- C9: every snapshot failure maps to the fallback record (never an
error), and a snapshot that parses but carries none of the three numeric
fields is computed with the defaults `phi = 3.252`,
`quantum_entropy = 0.926`, `loop_iteration = 1`. -/
theorem c9_snapshot_failure_fallback (sinAbs : ℚ → ℚ) (w : World) (raw : String)
    (state : LoopState)
    (hphi : state.information_dynamics_phi = none)
    (hqe : state.quantum_entropy = none)
    (hli : state.loop_iteration = none) :
    calculate_information_dynamics_metrics FileRead.missing sinAbs w =
      fallback_branch (sinAbs ((get_current_timestamp w : ℚ) / 1000))
    ∧ calculate_information_dynamics_metrics (FileRead.unparseable raw) sinAbs w =
      fallback_branch (sinAbs ((get_current_timestamp w : ℚ) / 1000))
    ∧ calculate_information_dynamics_metrics (FileRead.parsed state) sinAbs w =
      snapshot_branch ⟨some 3.252, some 0.926, some 1, state.haiku_content⟩ := by
  refine ⟨rfl, rfl, ?_⟩
  show snapshot_branch state = _
  simp [snapshot_branch, hphi, hqe, hli]

/-- Witness for C9: a parsed snapshot with all fields absent equals the
snapshot branch at the defaults. -/
theorem c9_snapshot_failure_fallback_witness :
    (⟨none, none, none, none⟩ : LoopState).information_dynamics_phi = none
    ∧ calculate_information_dynamics_metrics (FileRead.parsed ⟨none, none, none, none⟩)
        (fun _ => 0) ⟨0⟩ =
      snapshot_branch ⟨some 3.252, some 0.926, some 1, none⟩ :=
  ⟨rfl,
   (c9_snapshot_failure_fallback (fun _ => 0) ⟨0⟩ "" ⟨none, none, none, none⟩
      rfl rfl rfl).2.2⟩

/-- C10: in the fallback branch, `semantic_closure = 0.885 + 0.1 * t` is at
least 0.885 for every `t ≥ 0`, which exceeds the 0.8 comparison, so
`threshold_exceeded` is always true. -/
theorem c10_fallback_threshold (t : ℚ) (h : 0 ≤ t) :
    0.885 ≤ (fallback_branch t).semantic_closure
    ∧ (fallback_branch t).threshold_exceeded = true := by
  constructor
  · show (0.885 : ℚ) ≤ 0.885 + t * 0.1
    linarith
  · show decide ((0.885 + t * 0.1 : ℚ) > 0.8) = true
    rw [decide_eq_true_iff]
    linarith

/-- Witness for C10: `t = 0` gives `semantic_closure = 0.885` and
`threshold_exceeded = true`. -/
theorem c10_fallback_threshold_witness :
    (0 : ℚ) ≤ 0
    ∧ (0.885 ≤ (fallback_branch 0).semantic_closure
      ∧ (fallback_branch 0).threshold_exceeded = true) :=
  ⟨le_rfl, c10_fallback_threshold 0 le_rfl⟩

/-- Counterexample to C1: (a) with a parsed snapshot whose `haiku_content`
splits into exactly 3 lines but `phi = 0.5` (so `threshold_exceeded` is
false), the fortune haiku is the standard haiku, not the snapshot lines;
(b) with `phi = 2` and a 4-line `haiku_content`, all 4 lines are returned,
not the first 3. -/
theorem c1_haiku_passthrough_counterexample :
    fortune_haiku (FileRead.parsed ⟨some 0.5, none, none, some "a\\nb\\nc"⟩)
        (fun _ => 0) ⟨0⟩ ≠ ["a", "b", "c"]
    ∧ fortune_haiku (FileRead.parsed ⟨some 0.5, none, none, some "a\\nb\\nc"⟩)
        (fun _ => 0) ⟨0⟩ = generate_standard_haiku
    ∧ (fortune_haiku (FileRead.parsed ⟨some 2, none, none, some "a\\nb\\nc\\nd"⟩)
        (fun _ => 0) ⟨0⟩).length = 4 := by
  have h1 : fortune_haiku (FileRead.parsed ⟨some 0.5, none, none, some "a\\nb\\nc"⟩)
      (fun _ => 0) ⟨0⟩ = generate_standard_haiku := by
    simp [fortune_haiku, calculate_information_dynamics_metrics, snapshot_branch]
    norm_num
  have h2 : fortune_haiku (FileRead.parsed ⟨some 2, none, none, some "a\\nb\\nc\\nd"⟩)
      (fun _ => 0) ⟨0⟩ = split_haiku "a\\nb\\nc\\nd" := by
    simp [fortune_haiku, calculate_information_dynamics_metrics, snapshot_branch,
          generate_information_dynamics_haiku, split_haiku, splitOnLit]
  refine ⟨?_, h1, ?_⟩
  · rw [h1]
    decide
  · rw [h2]
    decide

/-- C1 as amended: when the derived metrics have `threshold_exceeded = true`
and the snapshot's `haiku_content` splits into at least 3 lines, the
fortune haiku is ALL of those lines verbatim (3 or more); when
`threshold_exceeded = false`, the fixed standard haiku is returned
regardless of the snapshot. -/
theorem c1_haiku_passthrough_amended (state : LoopState) (sinAbs : ℚ → ℚ) (w : World)
    (hc : String) (hhc : state.haiku_content = some hc)
    (hlen : 3 ≤ (split_haiku hc).length) :
    ((calculate_information_dynamics_metrics (FileRead.parsed state) sinAbs
        w).threshold_exceeded = true →
      fortune_haiku (FileRead.parsed state) sinAbs w = split_haiku hc)
    ∧ ((calculate_information_dynamics_metrics (FileRead.parsed state) sinAbs
        w).threshold_exceeded = false →
      fortune_haiku (FileRead.parsed state) sinAbs w = generate_standard_haiku) := by
  constructor
  · intro hth
    simp [fortune_haiku, hth, generate_information_dynamics_haiku, hhc, hlen]
  · intro hth
    simp [fortune_haiku, hth]

/-- Witness for C1 (amended): `phi = 2` with a 3-line `haiku_content`
returns exactly the split lines. -/
theorem c1_haiku_passthrough_amended_witness :
    (⟨some 2, none, none, some "x\\ny\\nz"⟩ : LoopState).haiku_content =
        some "x\\ny\\nz"
    ∧ 3 ≤ (split_haiku "x\\ny\\nz").length
    ∧ fortune_haiku (FileRead.parsed ⟨some 2, none, none, some "x\\ny\\nz"⟩)
        (fun _ => 0) ⟨0⟩ = split_haiku "x\\ny\\nz" :=
  ⟨rfl, by decide,
   (c1_haiku_passthrough_amended ⟨some 2, none, none, some "x\\ny\\nz"⟩
      (fun _ => 0) ⟨0⟩ "x\\ny\\nz" rfl (by decide)).1
     (by simp [calculate_information_dynamics_metrics, snapshot_branch])⟩

end ZeldarOracle
